import Mathlib

/-!
Shallow embedding of `SlotMachine.h`, a static data header for an embedded
slot-machine game: a menu-label string table, an 8x8 glyph bitmap table and a
table of note frequencies.  The constant tables are transcribed from the source;
the lookup accessors described by the specification are modelled on top of them.
-/

namespace SlotMachine

/-- Source line `const char string_00[] PROGMEM = "..."` (literal of 19 characters). -/
def string_00 : String := "PayedOut           "

/-- Source line `const char string_01[] PROGMEM = "..."` (literal of 19 characters). -/
def string_01 : String := "Wagered            "

/-- Source line `const char string_02[] PROGMEM = "..."` (literal of 19 characters). -/
def string_02 : String := "Plays              "

/-- Source line `const char string_03[] PROGMEM = "..."` (literal of 19 characters). -/
def string_03 : String := "2 Match            "

/-- Source line `const char string_04[] PROGMEM = "..."` (literal of 19 characters). -/
def string_04 : String := "3 Match            "

/-- Source line `const char string_05[] PROGMEM = "..."` (literal of 19 characters). -/
def string_05 : String := "Ship 1 Match       "

/-- Source line `const char string_06[] PROGMEM = "..."` (literal of 19 characters). -/
def string_06 : String := "Ship 2 Match       "

/-- Source line `const char string_07[] PROGMEM = "..."` (literal of 19 characters). -/
def string_07 : String := "Ship 3 Match       "

/-- Source line `const char string_08[] PROGMEM = "..."` (literal of 19 characters). -/
def string_08 : String := "1 Alien            "

/-- Source line `const char string_09[] PROGMEM = "..."` (literal of 19 characters). -/
def string_09 : String := "2 Alien            "

/-- Source line `const char string_10[] PROGMEM = "..."` (literal of 19 characters). -/
def string_10 : String := "3 Alien            "

/-- Source line `const char string_11[] PROGMEM = "..."` (literal of 19 characters). -/
def string_11 : String := "EEprom             "

/-- Source line `const char string_12[] PROGMEM = "..."` (literal of 19 characters). -/
def string_12 : String := "Credits            "

/-- Source line `const char string_13[] PROGMEM = "..."` (literal of 19 characters). -/
def string_13 : String := "Back               "

/-- Source `string_table`: the 14 menu labels in order. -/
def string_table : List String := [string_00, string_01, string_02, string_03, string_04, string_05, string_06, string_07, string_08, string_09, string_10, string_11, string_12, string_13]

/-- Source `#define MENU_PAYED_OUT 0`. -/
def MENU_PAYED_OUT : Nat := 0

/-- Source `#define MENU_WAGERED 1`. -/
def MENU_WAGERED : Nat := 1

/-- Source `#define MENU_PLAYS 2`. -/
def MENU_PLAYS : Nat := 2

/-- Source `#define MENU_2_MATCH 3`. -/
def MENU_2_MATCH : Nat := 3

/-- Source `#define MENU_3_MATCH 4`. -/
def MENU_3_MATCH : Nat := 4

/-- Source `#define MENU_SHIP_1_MATCH 5`. -/
def MENU_SHIP_1_MATCH : Nat := 5

/-- Source `#define MENU_SHIP_2_MATCH 6`. -/
def MENU_SHIP_2_MATCH : Nat := 6

/-- Source `#define MENU_SHIP_3_MATCH 7`. -/
def MENU_SHIP_3_MATCH : Nat := 7

/-- Source `#define MENU_1_ALIEN 8`. -/
def MENU_1_ALIEN : Nat := 8

/-- Source `#define MENU_2_ALIEN 9`. -/
def MENU_2_ALIEN : Nat := 9

/-- Source `#define MENU_3_ALIEN 10`. -/
def MENU_3_ALIEN : Nat := 10

/-- Source `#define MENU_EEPROM 11`. -/
def MENU_EEPROM : Nat := 11

/-- Source `#define MENU_CREDITS 12`. -/
def MENU_CREDITS : Nat := 12

/-- Source `#define MENU_BACK 13`. -/
def MENU_BACK : Nat := 13

/-- The 14 menu index constants, in source order. -/
def menuConstants : List Nat := [MENU_PAYED_OUT, MENU_WAGERED, MENU_PLAYS, MENU_2_MATCH, MENU_3_MATCH, MENU_SHIP_1_MATCH, MENU_SHIP_2_MATCH, MENU_SHIP_3_MATCH, MENU_1_ALIEN, MENU_2_ALIEN, MENU_3_ALIEN, MENU_EEPROM, MENU_CREDITS, MENU_BACK]

/-- Source `char buffer[20]`: the capacity, in bytes, of the scratch display buffer. -/
def bufferSize : Nat := 20

/-- Source `const byte reel[]`: 25 glyphs of 8 rows each, as 8-bit row values. -/
def reel : List Nat :=
  [0b10011001, 0b01011010, 0b00111100, 0b11111111, 0b11111111, 0b00111100, 0b01011010, 0b10011001,
   0b00000000, 0b00000000, 0b00000000, 0b00011000, 0b00011000, 0b00000000, 0b00000000, 0b00000000,
   0b11111111, 0b11111111, 0b00000000, 0b11111111, 0b11111111, 0b00000000, 0b11111111, 0b11111111,
   0b01100110, 0b11111111, 0b11111111, 0b11111111, 0b11111111, 0b01111110, 0b00111100, 0b00011000,
   0b00000000, 0b01100000, 0b01100000, 0b00000000, 0b00000000, 0b00000110, 0b00000110, 0b00000000,
   0b00000000, 0b01111110, 0b01111110, 0b00001100, 0b00011000, 0b00111000, 0b00111000, 0b00000000,
   0b00011000, 0b00111100, 0b01011010, 0b00111000, 0b00011100, 0b01011010, 0b00111100, 0b00011000,
   0b00000000, 0b01100000, 0b01100000, 0b00011000, 0b00011000, 0b00000110, 0b00000110, 0b00000000,
   0b00100100, 0b00100100, 0b11111111, 0b00100100, 0b00100100, 0b11111111, 0b00100100, 0b00100100,
   0b00000000, 0b00000000, 0b00000000, 0b11111111, 0b11111111, 0b00000000, 0b00000000, 0b00000000,
   0b00000000, 0b01100110, 0b01100110, 0b00000000, 0b00000000, 0b01100110, 0b01100110, 0b00000000,
   0b11111111, 0b10000001, 0b10000001, 0b11110011, 0b11100111, 0b11000111, 0b11000111, 0b11111111,
   0b11011011, 0b11011011, 0b00000000, 0b11011011, 0b11011011, 0b00000000, 0b11011011, 0b11011011,
   0b00000000, 0b01100110, 0b01100110, 0b00011000, 0b00011000, 0b01100110, 0b01100110, 0b00000000,
   0b00000000, 0b11111111, 0b11111111, 0b00000000, 0b00000000, 0b11111111, 0b11111111, 0b00000000,
   0b01000010, 0b00100100, 0b01111110, 0b11011011, 0b11111111, 0b11111111, 0b10100101, 0b00100100,
   0b00000000, 0b00100100, 0b00000000, 0b00011000, 0b01000010, 0b01000010, 0b00111100, 0b00011000,
   0b00000000, 0b11011011, 0b11011011, 0b00000000, 0b00000000, 0b11011011, 0b11011011, 0b00000000,
   0b00000000, 0b00000000, 0b00111100, 0b01111110, 0b10101011, 0b01111110, 0b00111100, 0b00000000,
   0b00011000, 0b00111100, 0b01111110, 0b11011011, 0b11111111, 0b00100100, 0b01011010, 0b10100101,
   0b00011000, 0b00111100, 0b01111110, 0b11011011, 0b11111111, 0b00100100, 0b01011010, 0b01000010,
   0b00000000, 0b10000001, 0b11111111, 0b11011011, 0b11111111, 0b01111110, 0b00100100, 0b01000010,
   0b00010000, 0b00110000, 0b00010000, 0b00010000, 0b00010000, 0b00010000, 0b00010000, 0b00111000,
   0b00111000, 0b01000100, 0b10000010, 0b00000100, 0b00001000, 0b00010000, 0b00100000, 0b11111110,
   0b11111111, 0b00000010, 0b00000100, 0b00011100, 0b00000010, 0b00000100, 0b00001000, 0b11100000]

def NOTE_B0 : Nat := 31
def NOTE_C1 : Nat := 33
def NOTE_CS1 : Nat := 35
def NOTE_D1 : Nat := 37
def NOTE_DS1 : Nat := 39
def NOTE_E1 : Nat := 41
def NOTE_F1 : Nat := 44
def NOTE_FS1 : Nat := 46
def NOTE_G1 : Nat := 49
def NOTE_GS1 : Nat := 52
def NOTE_A1 : Nat := 55
def NOTE_AS1 : Nat := 58
def NOTE_B1 : Nat := 62
def NOTE_C2 : Nat := 65
def NOTE_CS2 : Nat := 69
def NOTE_D2 : Nat := 73
def NOTE_DS2 : Nat := 78
def NOTE_E2 : Nat := 82
def NOTE_F2 : Nat := 87
def NOTE_FS2 : Nat := 93
def NOTE_G2 : Nat := 98
def NOTE_GS2 : Nat := 104
def NOTE_A2 : Nat := 110
def NOTE_AS2 : Nat := 117
def NOTE_B2 : Nat := 123
def NOTE_C3 : Nat := 131
def NOTE_CS3 : Nat := 139
def NOTE_D3 : Nat := 147
def NOTE_DS3 : Nat := 156
def NOTE_E3 : Nat := 165
def NOTE_F3 : Nat := 175
def NOTE_FS3 : Nat := 185
def NOTE_G3 : Nat := 196
def NOTE_GS3 : Nat := 208
def NOTE_A3 : Nat := 220
def NOTE_AS3 : Nat := 233
def NOTE_B3 : Nat := 247
def NOTE_C4 : Nat := 262
def NOTE_CS4 : Nat := 277
def NOTE_D4 : Nat := 294
def NOTE_DS4 : Nat := 311
def NOTE_E4 : Nat := 330
def NOTE_F4 : Nat := 349
def NOTE_FS4 : Nat := 370
def NOTE_G4 : Nat := 392
def NOTE_GS4 : Nat := 415
def NOTE_A4 : Nat := 440
def NOTE_AS4 : Nat := 466
def NOTE_B4 : Nat := 494
def NOTE_C5 : Nat := 523
def NOTE_CS5 : Nat := 554
def NOTE_D5 : Nat := 587
def NOTE_DS5 : Nat := 622
def NOTE_E5 : Nat := 659
def NOTE_F5 : Nat := 698
def NOTE_FS5 : Nat := 740
def NOTE_G5 : Nat := 784
def NOTE_GS5 : Nat := 831
def NOTE_A5 : Nat := 880
def NOTE_AS5 : Nat := 932
def NOTE_B5 : Nat := 988
def NOTE_C6 : Nat := 1047
def NOTE_CS6 : Nat := 1109
def NOTE_D6 : Nat := 1175
def NOTE_DS6 : Nat := 1245
def NOTE_E6 : Nat := 1319
def NOTE_F6 : Nat := 1397
def NOTE_FS6 : Nat := 1480
def NOTE_G6 : Nat := 1568
def NOTE_GS6 : Nat := 1661
def NOTE_A6 : Nat := 1760
def NOTE_AS6 : Nat := 1865
def NOTE_B6 : Nat := 1976
def NOTE_C7 : Nat := 2093
def NOTE_CS7 : Nat := 2217
def NOTE_D7 : Nat := 2349
def NOTE_DS7 : Nat := 2489
def NOTE_E7 : Nat := 2637
def NOTE_F7 : Nat := 2794
def NOTE_FS7 : Nat := 2960
def NOTE_G7 : Nat := 3136
def NOTE_GS7 : Nat := 3322
def NOTE_A7 : Nat := 3520
def NOTE_AS7 : Nat := 3729
def NOTE_B7 : Nat := 3951
def NOTE_C8 : Nat := 4186
def NOTE_CS8 : Nat := 4435
def NOTE_D8 : Nat := 4699
def NOTE_DS8 : Nat := 4978

/-- The note-name table in source order: each `#define NOTE_x f` as a pair. -/
def noteTable : List (String × Nat) :=
  [("NOTE_B0", NOTE_B0),
   ("NOTE_C1", NOTE_C1),
   ("NOTE_CS1", NOTE_CS1),
   ("NOTE_D1", NOTE_D1),
   ("NOTE_DS1", NOTE_DS1),
   ("NOTE_E1", NOTE_E1),
   ("NOTE_F1", NOTE_F1),
   ("NOTE_FS1", NOTE_FS1),
   ("NOTE_G1", NOTE_G1),
   ("NOTE_GS1", NOTE_GS1),
   ("NOTE_A1", NOTE_A1),
   ("NOTE_AS1", NOTE_AS1),
   ("NOTE_B1", NOTE_B1),
   ("NOTE_C2", NOTE_C2),
   ("NOTE_CS2", NOTE_CS2),
   ("NOTE_D2", NOTE_D2),
   ("NOTE_DS2", NOTE_DS2),
   ("NOTE_E2", NOTE_E2),
   ("NOTE_F2", NOTE_F2),
   ("NOTE_FS2", NOTE_FS2),
   ("NOTE_G2", NOTE_G2),
   ("NOTE_GS2", NOTE_GS2),
   ("NOTE_A2", NOTE_A2),
   ("NOTE_AS2", NOTE_AS2),
   ("NOTE_B2", NOTE_B2),
   ("NOTE_C3", NOTE_C3),
   ("NOTE_CS3", NOTE_CS3),
   ("NOTE_D3", NOTE_D3),
   ("NOTE_DS3", NOTE_DS3),
   ("NOTE_E3", NOTE_E3),
   ("NOTE_F3", NOTE_F3),
   ("NOTE_FS3", NOTE_FS3),
   ("NOTE_G3", NOTE_G3),
   ("NOTE_GS3", NOTE_GS3),
   ("NOTE_A3", NOTE_A3),
   ("NOTE_AS3", NOTE_AS3),
   ("NOTE_B3", NOTE_B3),
   ("NOTE_C4", NOTE_C4),
   ("NOTE_CS4", NOTE_CS4),
   ("NOTE_D4", NOTE_D4),
   ("NOTE_DS4", NOTE_DS4),
   ("NOTE_E4", NOTE_E4),
   ("NOTE_F4", NOTE_F4),
   ("NOTE_FS4", NOTE_FS4),
   ("NOTE_G4", NOTE_G4),
   ("NOTE_GS4", NOTE_GS4),
   ("NOTE_A4", NOTE_A4),
   ("NOTE_AS4", NOTE_AS4),
   ("NOTE_B4", NOTE_B4),
   ("NOTE_C5", NOTE_C5),
   ("NOTE_CS5", NOTE_CS5),
   ("NOTE_D5", NOTE_D5),
   ("NOTE_DS5", NOTE_DS5),
   ("NOTE_E5", NOTE_E5),
   ("NOTE_F5", NOTE_F5),
   ("NOTE_FS5", NOTE_FS5),
   ("NOTE_G5", NOTE_G5),
   ("NOTE_GS5", NOTE_GS5),
   ("NOTE_A5", NOTE_A5),
   ("NOTE_AS5", NOTE_AS5),
   ("NOTE_B5", NOTE_B5),
   ("NOTE_C6", NOTE_C6),
   ("NOTE_CS6", NOTE_CS6),
   ("NOTE_D6", NOTE_D6),
   ("NOTE_DS6", NOTE_DS6),
   ("NOTE_E6", NOTE_E6),
   ("NOTE_F6", NOTE_F6),
   ("NOTE_FS6", NOTE_FS6),
   ("NOTE_G6", NOTE_G6),
   ("NOTE_GS6", NOTE_GS6),
   ("NOTE_A6", NOTE_A6),
   ("NOTE_AS6", NOTE_AS6),
   ("NOTE_B6", NOTE_B6),
   ("NOTE_C7", NOTE_C7),
   ("NOTE_CS7", NOTE_CS7),
   ("NOTE_D7", NOTE_D7),
   ("NOTE_DS7", NOTE_DS7),
   ("NOTE_E7", NOTE_E7),
   ("NOTE_F7", NOTE_F7),
   ("NOTE_FS7", NOTE_FS7),
   ("NOTE_G7", NOTE_G7),
   ("NOTE_GS7", NOTE_GS7),
   ("NOTE_A7", NOTE_A7),
   ("NOTE_AS7", NOTE_AS7),
   ("NOTE_B7", NOTE_B7),
   ("NOTE_C8", NOTE_C8),
   ("NOTE_CS8", NOTE_CS8),
   ("NOTE_D8", NOTE_D8),
   ("NOTE_DS8", NOTE_DS8)]

/-- Modelled from the spec: the accessor `getMenuLabel(index) -> text` is absent
from the supplied source (only the raw `string_table` is present); the spec
constrains the input to the enumerated index range 0–13 and asks that an
out-of-range index fail with a defined error rather than read adjacent memory. -/
def getMenuLabel (i : Nat) : Option String := string_table.get? i

/-- Modelled from the spec: the accessor `getGlyph(index) -> 8-row bitmap` is
absent from the supplied source (only the raw `reel` array is present); indices
are constrained to 0–24, glyph `i` being the 8 consecutive rows starting at byte
`8*i`, and an out-of-range index fails with a defined error. -/
def getGlyph (i : Nat) : Option (List Nat) :=
  if i < 25 then some ((reel.drop (8 * i)).take 8) else none

/-- Modelled from the spec: the accessor `getNoteFrequency(name) -> integer Hz`
is absent from the supplied source (only the `NOTE_x` constants are present); a
valid note name maps to its frequency constant and an invalid name fails with a
defined error. -/
def getNoteFrequency (name : String) : Option Nat :=
  (noteTable.find? (fun p => p.1 == name)).map Prod.snd

/-- C1 counterexample: `getMenuLabel MENU_PAYED_OUT` returns a string of 19
characters, not the 20 characters the claim asserts. -/
theorem getMenuLabel_len_ne_twenty :
    (getMenuLabel MENU_PAYED_OUT).map String.length = some 19 ∧
      (getMenuLabel MENU_PAYED_OUT).map String.length ≠ some 20 := by
  constructor <;> decide

/-- C1 (amended): for every valid menu index `i` with `i ≤ 13`, `getMenuLabel i`
returns a space-padded string of exactly 19 characters (each source array is 20
bytes, the 19 characters plus the NUL terminator). -/
theorem getMenuLabel_len (i : Nat) (h : i ≤ 13) :
    ∃ s, getMenuLabel i = some s ∧ s.length = 19 := by
  interval_cases i <;> exact ⟨_, rfl, rfl⟩

/-- C1 witness: the amended claim evaluated at index 12. -/
theorem getMenuLabel_len_witness :
    ∃ s, getMenuLabel 12 = some s ∧ s.length = 19 :=
  getMenuLabel_len 12 (by decide)

/-- C2 counterexample: `getMenuLabel MENU_CREDITS` is not the 20-character
string `"Credits"` followed by 13 spaces that the claim describes as the
returned value. -/
theorem getMenuLabel_credits_ne_padded :
    getMenuLabel MENU_CREDITS ≠ some "Credits             " := by decide

/-- C2 (amended): `getMenuLabel MENU_CREDITS` returns exactly the source
literal `string_12`, which is `"Credits"` followed by 12 spaces, 19 characters
in all. -/
theorem getMenuLabel_credits :
    getMenuLabel MENU_CREDITS = some string_12 ∧
      string_12 = "Credits            " ∧ string_12.length = 19 :=
  ⟨rfl, rfl, rfl⟩

/-- C5: there are exactly 14 menu index constants, their values are exactly the
integers 0 through 13 with no duplicates, and each constant indexes the label of
its own position in the 14-entry table. -/
theorem menu_constants_stable :
    menuConstants = [0, 1, 2, 3, 4, 5, 6, 7, 8, 9, 10, 11, 12, 13] ∧
      menuConstants.Nodup ∧ string_table.length = 14 ∧
      string_table.get? MENU_PAYED_OUT = some string_00 ∧
      string_table.get? MENU_WAGERED = some string_01 ∧
      string_table.get? MENU_PLAYS = some string_02 ∧
      string_table.get? MENU_2_MATCH = some string_03 ∧
      string_table.get? MENU_3_MATCH = some string_04 ∧
      string_table.get? MENU_SHIP_1_MATCH = some string_05 ∧
      string_table.get? MENU_SHIP_2_MATCH = some string_06 ∧
      string_table.get? MENU_SHIP_3_MATCH = some string_07 ∧
      string_table.get? MENU_1_ALIEN = some string_08 ∧
      string_table.get? MENU_2_ALIEN = some string_09 ∧
      string_table.get? MENU_3_ALIEN = some string_10 ∧
      string_table.get? MENU_EEPROM = some string_11 ∧
      string_table.get? MENU_CREDITS = some string_12 ∧
      string_table.get? MENU_BACK = some string_13 :=
  ⟨rfl, by decide, rfl, rfl, rfl, rfl, rfl, rfl, rfl, rfl, rfl, rfl, rfl, rfl,
   rfl, rfl, rfl⟩

/-- C7: every one of the 14 menu labels has the same width, 19 characters, so
overwriting a display line with any label never leaves stale characters. -/
theorem labels_common_width (s : String) (h : s ∈ string_table) :
    s.length = 19 := by
  fin_cases h <;> rfl

/-- C7 witness: the common width evaluated at `string_13`. -/
theorem labels_common_width_witness : string_13.length = 19 :=
  labels_common_width string_13 (by decide)

/-- C9: the scratch display buffer holds 20 bytes, and every menu label plus its
NUL terminator fits in it without overflow. -/
theorem buffer_fits_labels :
    bufferSize = 20 ∧ ∀ s ∈ string_table, s.length + 1 ≤ bufferSize := by
  refine ⟨rfl, ?_⟩
  intro s h
  fin_cases h <;> decide

/-- C9 witness: the buffer bound evaluated at `string_00`. -/
theorem buffer_fits_labels_witness : string_00.length + 1 ≤ bufferSize :=
  buffer_fits_labels.2 string_00 (by decide)

set_option maxRecDepth 8000

/-- Mapping `Prod.snd` over an optional pair preserves `isSome`. -/
theorem isSome_map_snd (x : Option (String × Nat)) :
    (x.map Prod.snd).isSome = x.isSome := by cases x <;> rfl

/-- C3: every successful note-name lookup yields a positive frequency, and the
frequencies are strictly increasing in the source table order, which lists the
notes in ascending pitch/octave order from NOTE_B0 up to NOTE_DS8. -/
theorem noteFrequency_pos_increasing :
    (∀ name f, getNoteFrequency name = some f → 0 < f) ∧
      List.Chain' (fun a b => a < b) (noteTable.map Prod.snd) := by
  constructor
  · intro name f hf
    rw [getNoteFrequency, Option.map_eq_some'] at hf
    rcases hf with ⟨p, hp, hf⟩
    have hmem : p ∈ noteTable := List.mem_of_find?_eq_some hp
    have hall : ∀ q ∈ noteTable, 0 < q.2 := by decide
    exact hf ▸ hall p hmem
  · rw [List.chain'_iff_pairwise]
    decide

/-- C3 witness: the positivity applied to the concrete lookup of NOTE_A4. -/
theorem noteFrequency_pos_increasing_witness :
    getNoteFrequency "NOTE_A4" = some 440 ∧ 0 < 440 :=
  ⟨by decide, noteFrequency_pos_increasing.1 "NOTE_A4" 440 (by decide)⟩

/-- C4: the glyph table holds exactly 25 glyphs of 8 rows each (200 row bytes,
every row an 8-bit value), and for every index `i ≤ 24` the lookup `getGlyph i`
returns exactly 8 byte values. -/
theorem getGlyph_eight_rows (i : Nat) (h : i ≤ 24) :
    reel.length = 8 * 25 ∧ (∀ b ∈ reel, b < 256) ∧
      ∃ g, getGlyph i = some g ∧ g.length = 8 := by
  have h25 : i < 25 := Nat.lt_succ_of_le h
  refine ⟨rfl, by decide, (reel.drop (8 * i)).take 8, ?_, ?_⟩
  · simp [getGlyph, h25]
  · rw [List.length_take, List.length_drop]
    have hl : reel.length = 200 := rfl
    rw [hl]
    omega

/-- C4 witness: the glyph shape property evaluated at index 24. -/
theorem getGlyph_eight_rows_witness :
    reel.length = 8 * 25 ∧ (∀ b ∈ reel, b < 256) ∧
      ∃ g, getGlyph 24 = some g ∧ g.length = 8 :=
  getGlyph_eight_rows 24 (by decide)

/-- C6: each modelled lookup succeeds exactly on its valid key range and fails
with the defined error value `none` otherwise; in particular menu index 99
fails. -/
theorem lookups_fail_on_invalid_keys :
    (∀ i : Nat, (getMenuLabel i).isSome ↔ i ≤ 13) ∧
      (∀ i : Nat, (getGlyph i).isSome ↔ i ≤ 24) ∧
      (∀ name : String,
        (getNoteFrequency name).isSome ↔ name ∈ noteTable.map Prod.fst) ∧
      getMenuLabel 99 = none := by
  refine ⟨?_, ?_, ?_, rfl⟩
  · intro i
    have hlen : string_table.length = 14 := rfl
    rw [getMenuLabel, Option.isSome_iff_ne_none, ne_eq, List.get?_eq_none, hlen]
    omega
  · intro i
    rw [getGlyph]
    split <;> simp <;> omega
  · intro name
    rw [getNoteFrequency, isSome_map_snd, List.find?_isSome]
    constructor
    · rintro ⟨p, hp, he⟩
      exact List.mem_map.mpr ⟨p, hp, by simpa using he⟩
    · intro hmem
      rcases List.mem_map.mp hmem with ⟨p, hp, he⟩
      exact ⟨p, hp, by simp [he]⟩

/-- C8: glyph 18, the SpaceShip, is exactly the byte sequence
0, 0, 60, 126, 171, 126, 60, 0. -/
theorem getGlyph_spaceship :
    getGlyph 18 = some [0, 0, 60, 126, 171, 126, 60, 0] := by decide

/-- C10: the A-pitch frequencies are 55, 110, 220, 440, 880, 1760, 3520 Hz, so
each octave step on A doubles the frequency exactly. -/
theorem note_A_octave_doubling :
    NOTE_A1 = 55 ∧ NOTE_A2 = 2 * NOTE_A1 ∧ NOTE_A3 = 2 * NOTE_A2 ∧
      NOTE_A4 = 2 * NOTE_A3 ∧ NOTE_A5 = 2 * NOTE_A4 ∧ NOTE_A6 = 2 * NOTE_A5 ∧
      NOTE_A7 = 2 * NOTE_A6 ∧ NOTE_A7 = 3520 ∧
      getNoteFrequency "NOTE_A4" = some NOTE_A4 := by decide

end SlotMachine
